import Mathlib

/-!
Verification of the Dr.Jit indirect-call dispatcher (`extra/call.cpp`), the
Python `if_stmt` / `while_loop` frontends (`src/python/if_stmt.cpp`), and the
helper `ad_call_check_rv`, against the repository's natural-language
specification.  All definitions below are shallow embeddings translated from
the C++ source; the theorems settle the frozen claims C1-C10.
-/

/-- Decidable equality for `Except`, used to evaluate the embeddings on
concrete inputs. -/
instance {e a : Type} [DecidableEq e] [DecidableEq a] :
    DecidableEq (Except e a) := fun x y =>
  match x, y with
  | .ok u, .ok v =>
      if h : u = v then .isTrue (by rw [h]) else .isFalse (by simp [h])
  | .error u, .error v =>
      if h : u = v then .isTrue (by rw [h]) else .isFalse (by simp [h])
  | .ok _, .error _ => .isFalse (by simp)
  | .error _, .ok _ => .isFalse (by simp)

/-! ## Control-flow skeleton of `ad_call` (extra/call.cpp, `bool ad_call(...)`)

The dispatcher's branch structure is embedded exactly, with the individual
throw-points of the C++ code (user callbacks, size unification, the
AD-promotion steps) abstracted as boolean fields that say whether the
corresponding step raises.  The embedding tracks how many times
`cleanup_fn(payload)` runs during the invocation, and whether a `CallOp`
(the CustomOp hooking the call into the AD graph) was constructed. -/

/-- Inputs and throw-point oracle for one invocation of `ad_call`.  Mirrors
the parameters `domain`, `callable_count`, `is_getter`, `index`, `mask`,
`args`, `cleanup`, `ad` together with the jit flags read inside the
function. -/
structure AdCallIn where
  /-- `domain != nullptr` -/
  domain : Bool
  /-- the `callable_count` argument -/
  callable_count : Nat
  /-- `jit_registry_id_bound(backend, domain)`, used when a domain is given -/
  registryBound : Nat
  /-- the `is_getter` argument -/
  is_getter : Bool
  /-- `index == 0` -/
  indexZero : Bool
  /-- the unified `size` is 0 -/
  sizeZero : Bool
  /-- `jit_var_is_zero_literal(mask)` -/
  maskZeroLit : Bool
  /-- the size-unification loop over `mask` and `args` raises -/
  shapeMismatch : Bool
  /-- some `arg_i >> 32` is nonzero (`needs_ad` from the inputs) -/
  argsNeedAd : Bool
  /-- `jit_flag(JitFlag::VCallRecord)` -/
  vcallRecord : Bool
  /-- `jit_flag(JitFlag::Symbolic)` -/
  symbolicFlag : Bool
  /-- the invoked strategy (or the direct `func` call on the degenerate path)
  raises an exception -/
  strategyThrows : Bool
  /-- some entry of `rv_ad` is set after the strategy ran -/
  rvNeedsAd : Bool
  /-- `cleanup != nullptr` -/
  hasCleanup : Bool
  /-- the `ad` argument -/
  ad : Bool
  /-- a step after the `CallOp` construction and before `ad_custom_op`
  registration (`op->add_input`, `ad_var_new` on an output, `ad_custom_op`
  itself) raises an exception -/
  promoteThrows : Bool
  /-- `ad_custom_op(op.get())` returns true -/
  customOpNeeded : Bool
deriving Repr, DecidableEq

/-- Observable outcome of one `ad_call` invocation. -/
structure AdCallOut where
  /-- the invocation terminated by (re-)raising an exception -/
  raised : Bool
  /-- the boolean return value on the non-raising paths -/
  retval : Option Bool
  /-- number of times `cleanup(payload)` ran during the invocation -/
  cleanupCalls : Nat
  /-- a `CallOp` object holding the payload was constructed -/
  callOpConstructed : Bool
deriving Repr, DecidableEq

/-- Which continuation of `ad_call` runs.  This enumerates the leaves of the
function's if/else chain in source order: a raise that reaches the single
`catch (...)` handler before any `CallOp` exists, the successful return of
the degenerate path, or the `if (ad && needs_ad)` AD-wrapping tail (the
evaluated/reduce strategy reaches it with `ad` forced to `false`). -/
inductive AdCallPath where
  | earlyRaise
  | degenerateOk
  | wrapAd (ad : Bool)
deriving Repr, DecidableEq

/-- The branch structure of `bool ad_call(...)` (extra/call.cpp) in source
order: the domain/callable_count exclusivity check, size unification, the
degenerate test `index == 0 || size == 0 || zero_literal(mask) ||
callable_count == 0` (with `callable_count` re-read from the registry when a
domain was given), then strategy selection — getter, record (under
`JitFlag::VCallRecord`), or reduce, the latter rejecting an active
`JitFlag::Symbolic` region and clearing `ad`. -/
def ad_call_path (i : AdCallIn) : AdCallPath :=
  if (i.callable_count != 0) = i.domain then .earlyRaise
  else if i.shapeMismatch then .earlyRaise
  else if i.indexZero || i.sizeZero || i.maskZeroLit ||
      ((if i.domain then i.registryBound else i.callable_count) == 0) then
    (if i.strategyThrows then .earlyRaise else .degenerateOk)
  else if i.is_getter then
    (if i.strategyThrows then .earlyRaise else .wrapAd i.ad)
  else if i.vcallRecord then
    (if i.strategyThrows then .earlyRaise else .wrapAd i.ad)
  else if i.symbolicFlag then .earlyRaise
  else if i.strategyThrows then .earlyRaise
  else .wrapAd false

/-- Outcome of a raise that propagates through the dispatcher's single
`catch (...)` handler: `cleanup(payload)` runs there when it is non-null. -/
def ad_call_raise (i : AdCallIn) : AdCallOut :=
  { raised := true, retval := none,
    cleanupCalls := if i.hasCleanup then 1 else 0,
    callOpConstructed := false }

/-- The `if (ad && needs_ad) { ... }` tail of `ad_call`: construction of the
`CallOp` (which stores `cleanup` and calls it from its destructor), output
promotion, and `ad_custom_op` registration.  If a step in that window raises,
stack unwinding destroys the `nanobind::ref<CallOp>` — running
`cleanup(payload)` from `~CallOp` — and the exception then reaches the
catch-all handler, which runs `cleanup(payload)` again. -/
def ad_call_wrap_ad (i : AdCallIn) (ad : Bool) : AdCallOut :=
  if ad && (i.argsNeedAd || i.rvNeedsAd) then
    if i.promoteThrows then
      { raised := true, retval := none,
        cleanupCalls :=
          (if i.hasCleanup then 1 else 0) + (if i.hasCleanup then 1 else 0),
        callOpConstructed := true }
    else if i.customOpNeeded then
      -- `ad_custom_op` succeeded: the CallOp owns the payload, `return false`
      { raised := false, retval := some false, cleanupCalls := 0,
        callOpConstructed := true }
    else
      -- CustomOp not needed: `disable_deleter`, detach outputs, `return true`
      { raised := false, retval := some true, cleanupCalls := 0,
        callOpConstructed := true }
  else
    { raised := false, retval := some true, cleanupCalls := 0,
      callOpConstructed := false }

/-- Shallow embedding of `bool ad_call(...)` (extra/call.cpp): the early
checks, the degenerate path, strategy selection, and AD wrapping.  Only
control flow and cleanup accounting are modelled here; the strategies
themselves are embedded separately below. -/
def ad_call (i : AdCallIn) : AdCallOut :=
  match ad_call_path i with
  | .earlyRaise => ad_call_raise i
  | .degenerateOk =>
      { raised := false, retval := some true, cleanupCalls := 0,
        callOpConstructed := false }
  | .wrapAd ad => ad_call_wrap_ad i ad

/-- Helper: the only continuations `ad_call_path` can select (the AD-wrapping
tail runs with the caller's `ad` flag or, after the reduce strategy, with
`ad = false`). -/
theorem ad_call_path_cases (i : AdCallIn) :
    ad_call_path i = .earlyRaise ∨ ad_call_path i = .degenerateOk ∨
    ad_call_path i = .wrapAd i.ad ∨ ad_call_path i = .wrapAd false := by
  unfold ad_call_path
  repeat' split
  all_goals simp

/-- A concrete invocation on which `ad_call` raises after the `CallOp` was
constructed: record strategy, differentiable inputs, and a failing
AD-promotion step. -/
def adCallFailAfterOp : AdCallIn :=
  { domain := false, callable_count := 1, registryBound := 0,
    is_getter := false, indexZero := false, sizeZero := false,
    maskZeroLit := false, shapeMismatch := false, argsNeedAd := true,
    vcallRecord := true, symbolicFlag := false, strategyThrows := false,
    rvNeedsAd := false, hasCleanup := true, ad := true,
    promoteThrows := true, customOpNeeded := false }

/-- A concrete invocation that raises before any `CallOp` exists (the size
unification fails). -/
def adCallFailEarly : AdCallIn :=
  { domain := false, callable_count := 1, registryBound := 0,
    is_getter := false, indexZero := false, sizeZero := false,
    maskZeroLit := false, shapeMismatch := true, argsNeedAd := false,
    vcallRecord := true, symbolicFlag := false, strategyThrows := false,
    rvNeedsAd := false, hasCleanup := true, ad := true,
    promoteThrows := false, customOpNeeded := false }

/-- C1 counterexample: an `ad_call` invocation that terminates by raising an
exception after a `CallOp` holding the payload was constructed runs
`cleanup_fn(payload)` twice — once from `~CallOp` during stack unwinding and
once from the catch-all handler — refuting "exactly once". -/
theorem ad_call_double_cleanup_after_callop :
    (ad_call adCallFailAfterOp).raised = true ∧
    (ad_call adCallFailAfterOp).callOpConstructed = true ∧
    (ad_call adCallFailAfterOp).cleanupCalls = 2 ∧ (2 : Nat) ≠ 1 := by
  decide

/-- C1 (amended): when a non-null `cleanup_fn` is supplied, an invocation of
`ad_call` that terminates by raising an exception runs `cleanup_fn(payload)`
exactly once, unless the failure occurs after a `CallOp` holding the payload
was constructed (and before `ad_custom_op` took ownership), in which case it
runs exactly twice. -/
theorem ad_call_cleanup_count_on_raise (i : AdCallIn)
    (hc : i.hasCleanup = true) :
    (ad_call i).raised = true →
    (ad_call i).cleanupCalls =
      (if (ad_call i).callOpConstructed then 2 else 1) := by
  unfold ad_call
  rcases ad_call_path_cases i with hp | hp | hp | hp <;> rw [hp] <;>
    unfold ad_call_raise ad_call_wrap_ad <;>
    repeat' split
  all_goals simp_all

/-- C1 witness: the amended statement evaluated on a concrete failing
invocation (raise before any `CallOp`: one cleanup call). -/
theorem ad_call_cleanup_count_on_raise_witness :
    (ad_call adCallFailEarly).cleanupCalls =
      (if (ad_call adCallFailEarly).callOpConstructed then 2 else 1) :=
  ad_call_cleanup_count_on_raise adCallFailEarly (by decide) (by decide)

/-- The re-entrant dispatch performed by `CallOp::forward` and
`CallOp::backward`: both call
`ad_call(m_backend, m_domain, m_callable_count, name, false, m_index, m_mask,
args, rv, this, cb, nullptr, false)` — `is_getter = false`,
`cleanup = nullptr`, and `ad = false`. -/
def CallOp_reentrant_call (base : AdCallIn) : AdCallIn :=
  { base with is_getter := false, hasCleanup := false, ad := false }

/-- C10: the forward and backward passes of `CallOp` re-enter `ad_call` with
the `ad` flag set to `false`, so the nested dispatch never constructs a
nested `CustomOp`, whatever else happens during gradient propagation. -/
theorem CallOp_reentrant_never_constructs_callop (base : AdCallIn) :
    (ad_call (CallOp_reentrant_call base)).callOpConstructed = false := by
  unfold ad_call
  rcases ad_call_path_cases (CallOp_reentrant_call base) with hp | hp | hp | hp <;>
    rw [hp] <;> simp [ad_call_raise, ad_call_wrap_ad, CallOp_reentrant_call]

/-! ## The Python if-statement frontend (src/python/if_stmt.cpp, `if_stmt`)

The embedding mirrors the mode/condition dispatch of `nb::object if_stmt(...)`
in source order: computation of `is_scalar`/`is_auto`, the condition type
check of the non-scalar path (with its two raises), the scalar path that
invokes exactly one of `true_fn`/`false_fn` via `tuple_call`, the mode
validation, and the hand-off to `ad_cond`.  The branch callables and
`ad_cond` itself are kept abstract: the trace records how often each branch
was invoked at this level and whether `ad_cond` was entered. -/

/-- Errors raised by `if_stmt` before `ad_cond` is entered. -/
inductive IfErr where
  /-- `nb::raise("'cond' cannot be empty.")` -/
  | CondEmpty
  /-- `nb::raise("'cond' must either be a Jit-compiled 1D Boolean array or a
  Python 'bool'.")` -/
  | CondType
  /-- `nb::cast<bool>(cond)` failed on the scalar path -/
  | CastFail
  /-- `nb::raise("invalid 'mode' argument ...")` -/
  | BadMode
deriving Repr, DecidableEq

/-- The `mode` string argument: the four documented values and any other
string. -/
inductive IfMode where
  | auto
  | scalar
  | symbolic
  | evaluated
  | invalid
deriving Repr, DecidableEq

/-- The Python condition object: a `bool`, a Dr.Jit array (with its
`ArraySupplement` type/ndim/backend data and its underlying index), or any
other object. -/
inductive PyCond where
  | pybool (b : Bool)
  /-- a Dr.Jit array type; `isBool` is `(VarType) s.type == VarType::Bool`,
  `ndim` is `s.ndim`, `backendNone` is `(JitBackend) s.backend ==
  JitBackend::None`, and `index` is `s.index(inst_ptr(cond))` -/
  | jitArray (isBool : Bool) (ndim : Nat) (backendNone : Bool) (index : Nat)
  | otherObj
deriving Repr, DecidableEq

/-- `nb::cast<bool>(cond)`: a Python `bool` yields its value; the behaviour
on any other object is an oracle `castOther` (the cast is implemented by the
binding layer, outside this repository). -/
def if_stmt_cast_bool (cond : PyCond) (castOther : Option Bool) : Option Bool :=
  match cond with
  | .pybool b => some b
  | _ => castOther

/-- What one `if_stmt` invocation did at the dispatch level. -/
structure IfTrace where
  /-- number of `tuple_call(true_fn, args)` invocations made directly by
  `if_stmt` (not counting calls made later from inside `ad_cond`) -/
  calledTrue : Nat
  /-- ditto for `false_fn` -/
  calledFalse : Nat
  /-- `ad_cond(...)` was entered -/
  enteredAdCond : Bool
  /-- normal return, or the error raised -/
  outcome : Except IfErr Unit
deriving Repr, DecidableEq

/-- Shallow embedding of `nb::object if_stmt(...)`
(src/python/if_stmt.cpp).  `adT`/`adF` are oracle values for how often
`ad_cond`'s body callback ends up invoking each branch once the symbolic
machinery has been entered. -/
def if_stmt_run (mode : IfMode) (cond : PyCond) (castOther : Option Bool)
    (adT adF : Nat) : IfTrace :=
  -- `bool is_scalar = mode == "scalar", is_auto = mode == "auto";`
  -- `if (is_auto) is_scalar = cond.type().is(&PyBool_Type);`
  let is_scalar : Bool :=
    if mode = .auto then (match cond with | .pybool _ => true | _ => false)
    else (mode == .scalar)
  if is_scalar = false then
    -- `if (!is_scalar) { ... }`: find the index of a Jit-compiled 1D Boolean
    -- array; raise otherwise
    match cond with
    | .jitArray true 1 false i =>
        if i = 0 then ⟨0, 0, false, .error .CondEmpty⟩
        else
          -- mode validation (`invalid 'mode' argument` for anything besides
          -- auto/symbolic/evaluated; `scalar` cannot reach this point)
          if mode = .invalid then ⟨0, 0, false, .error .BadMode⟩
          else ⟨adT, adF, true, .ok ()⟩
    | _ => ⟨0, 0, false, .error .CondType⟩
  else
    -- `if (is_scalar) { if (nb::cast<bool>(cond)) return tuple_call(true_fn,
    -- args); else return tuple_call(false_fn, args); }`
    match if_stmt_cast_bool cond castOther with
    | some true => ⟨1, 0, false, .ok ()⟩
    | some false => ⟨0, 1, false, .ok ()⟩
    | none => ⟨0, 0, false, .error .CastFail⟩

/-- C7: in `auto` mode with a Python `bool` condition, and in `scalar` mode
whenever the cast of the condition to `bool` succeeds, `if_stmt` invokes
exactly one branch callable — `true_fn` when the condition is true, `false_fn`
otherwise — never invokes the other, and does not enter `ad_cond`. -/
theorem if_stmt_scalar_exactly_one_branch
    (castOther : Option Bool) (adT adF : Nat) (b : Bool) :
    (if_stmt_run .auto (.pybool b) castOther adT adF =
      ⟨if b then 1 else 0, if b then 0 else 1, false, .ok ()⟩) ∧
    (∀ cond : PyCond, if_stmt_cast_bool cond castOther = some b →
      if_stmt_run .scalar cond castOther adT adF =
        ⟨if b then 1 else 0, if b then 0 else 1, false, .ok ()⟩) := by
  constructor
  · cases b <;> simp [if_stmt_run, if_stmt_cast_bool]
  · intro cond hcast
    unfold if_stmt_run
    cases b <;> simp [hcast]

/-- C7 witness: both parts of the statement applied at concrete inputs:
`auto` mode with condition `True`, and `scalar` mode with a non-bool
condition whose cast yields `true`. -/
theorem if_stmt_scalar_exactly_one_branch_witness :
    (if_stmt_run .auto (.pybool true) none 5 7 = ⟨1, 0, false, .ok ()⟩) ∧
    (if_stmt_run .scalar .otherObj (some true) 5 7 =
      ⟨1, 0, false, .ok ()⟩) :=
  ⟨(if_stmt_scalar_exactly_one_branch none 5 7 true).1,
   (if_stmt_scalar_exactly_one_branch (some true) 5 7 true).2 .otherObj rfl⟩

/-- C9: a non-scalar `if_stmt` invocation (any mode other than `scalar`;
note that a Dr.Jit array condition never selects the scalar path in `auto`
mode) whose condition is a Dr.Jit 1D boolean array with underlying index 0
raises the `'cond' cannot be empty` error before either branch callable is
invoked and before `ad_cond` is entered. -/
theorem if_stmt_empty_cond_raises
    (mode : IfMode) (castOther : Option Bool) (adT adF : Nat)
    (hmode : mode ≠ .scalar) :
    if_stmt_run mode (.jitArray true 1 false 0) castOther adT adF =
      ⟨0, 0, false, .error .CondEmpty⟩ := by
  unfold if_stmt_run
  cases mode <;> simp_all

/-- C9 witness: the statement applied in `symbolic` mode. -/
theorem if_stmt_empty_cond_raises_witness :
    if_stmt_run .symbolic (.jitArray true 1 false 0) none 3 4 =
      ⟨0, 0, false, .error .CondEmpty⟩ :=
  if_stmt_empty_cond_raises .symbolic none 3 4 (by decide)

/-! ## The getter strategy (extra/call.cpp, `ad_call_getter`)

Two aspects are embedded.  First, the per-lane semantics of the output
computation for a slot that is not shortcut to a single shared handle:
`ad_call_getter` builds `is_non_null = (index != 0)`,
`mask = mask_ & is_non_null`, packs the per-callable scalars into a buffer
whose slot 0 is the never-written sentinel for instance id 0, and finishes
with `rv[i] = jit_var_gather(buf, index, mask)`.  A masked-out lane of a
gather yields 0.  Second, the invocation loop: `func` is always called with
the locally declared, never-populated `args2` vector (the `args` parameter is
explicitly cast to void). -/

/-- Per-lane semantics of `jit_var_gather(buf, index, mask)`: active lanes
read `buf` at their index, inactive lanes produce 0. -/
def jit_var_gather (buf : Nat → Int) (index : Nat → Nat) (mask : Nat → Bool)
    (k : Nat) : Int :=
  if mask k then buf (index k) else 0

/-- Per-lane value of `is_non_null = jit_var_neq(index, 0)`
(extra/call.cpp, `ad_call_getter`). -/
def getter_is_non_null (index : Nat → Nat) (k : Nat) : Bool :=
  index k != 0

/-- Per-lane value of `mask = jit_var_and(mask_, is_non_null)`
(extra/call.cpp, `ad_call_getter`). -/
def getter_mask (mask_ : Nat → Bool) (index : Nat → Nat) (k : Nat) : Bool :=
  mask_ k && getter_is_non_null index k

/-- Per-lane value of a non-shortcut output slot of `ad_call_getter`:
`rv[i] = jit_var_gather(buf.index(), index, mask.index())` where `buf` holds
slot 0 (uninitialized sentinel for the null instance) followed by one packed
scalar per callable. -/
def ad_call_getter_slot (buf : Nat → Int) (index : Nat → Nat)
    (mask_ : Nat → Bool) (k : Nat) : Int :=
  jit_var_gather buf index (getter_mask mask_ index) k

/-- C4: every output slot of the getter strategy that is not shortcut to a
single shared handle is a gather from the packed buffer at `instance_index`
under `mask AND (instance_index != 0)`; consequently a lane whose instance
index is 0 is masked out and yields zero output, regardless of the buffer
contents (i.e. of whatever `user_fn` returned) and of the incoming mask. -/
theorem ad_call_getter_null_instance_zero
    (buf : Nat → Int) (index : Nat → Nat) (mask_ : Nat → Bool) (k : Nat)
    (h : index k = 0) :
    ad_call_getter_slot buf index mask_ k =
      jit_var_gather buf index (getter_mask mask_ index) k ∧
    ad_call_getter_slot buf index mask_ k = 0 := by
  refine ⟨rfl, ?_⟩
  unfold ad_call_getter_slot jit_var_gather getter_mask getter_is_non_null
  simp [h]

/-- C4 witness: a lane with instance index 0, an all-true incoming mask, and
a buffer holding a nonzero value still yields 0. -/
theorem ad_call_getter_null_instance_zero_witness :
    ad_call_getter_slot (fun _ => 7) (fun _ => 0) (fun _ => true) 0 = 0 :=
  (ad_call_getter_null_instance_zero (fun _ => 7) (fun _ => 0)
    (fun _ => true) 0 rfl).2

/-- The invocation loop of `ad_call_getter` (extra/call.cpp): the list of
argument vectors passed to `func`, one entry per invoked callable.  With a
domain, callable `i` is skipped when `jit_registry_ptr(backend, domain,
i + 1)` is null; without one, every `i` in `0 .. callable_count - 1` is
invoked.  The function declares `dr_index64_vector args2; // unused`, never
fills it, discards the `args` parameter (`(void) args;`), and passes `args2`
to every `func(payload, ptr, args2, rv2)` call. -/
def ad_call_getter_callargs (registry : Nat → Bool) (domain : Bool)
    (callable_count : Nat) (args : List Nat) : List (List Nat) :=
  let _ := args  -- `(void) args;`
  let args2 : List Nat := []  -- `dr_index64_vector args2; // unused`
  (List.range callable_count).filterMap (fun i =>
    if domain && !(registry (i + 1)) then none
    else some args2)

/-- C8: in the getter strategy every callable invocation receives an empty
argument vector — the `args` supplied to the dispatcher are never forwarded —
so the recorded call arguments are all empty and are unchanged when the
dispatcher-level `args` are replaced by the empty list. -/
theorem ad_call_getter_args_never_forwarded (registry : Nat → Bool)
    (domain : Bool) (callable_count : Nat) (args : List Nat) :
    ((ad_call_getter_callargs registry domain callable_count args).all
      List.isEmpty) = true ∧
    ad_call_getter_callargs registry domain callable_count args =
      ad_call_getter_callargs registry domain callable_count [] := by
  refine ⟨?_, rfl⟩
  rw [List.all_eq_true]
  intro c hc
  unfold ad_call_getter_callargs at hc
  rcases List.mem_filterMap.mp hc with ⟨i, _, hmk⟩
  by_cases hd : (domain && !(registry (i + 1))) = true
  · simp [hd] at hmk
  · simp only [hd] at hmk
    simp at hmk
    simp [← hmk]

/-! ## The evaluated strategy (extra/call.cpp, `ad_call_reduce`)

The embedding covers the bucket loop.  `jit_var_call_reduce` (an external IR
service; spec section 3 "Call bucket") yields a list of buckets
`(id, permutation)` — possibly including a bucket for the null instance id 0,
which the loop skips — and for each non-empty bucket the loop gathers the
per-lane instance-id variable `instance_id = ad_var_gather(index, index2,
true)` and then executes `scoped_set_self set_self(backend, i + 1,
instance_id.index())`, where `i` is the POSITION of the bucket in the bucket
array, before invoking `func`. -/

/-- A call bucket as returned by `jit_var_call_reduce`: the callable id and
the permutation array (`buckets[i].index`) mapping bucket positions back to
the original lanes. -/
structure CallBucket where
  id : Nat
  perm : List Nat
deriving Repr, DecidableEq

/-- The values pushed onto the self stack by the bucket loop of
`ad_call_reduce`, in execution order: for each processed bucket (skipping
`buckets[i].id == 0`), the scalar self value `i + 1` passed to
`scoped_set_self` together with the per-lane instance-id variable gathered
from the (masked) call index through the bucket's permutation.  The position
counter `i` starts at the given value. -/
def ad_call_reduce_selfs_from (index : List Nat) :
    Nat → List CallBucket → List (Nat × List Nat)
  | _, [] => []
  | i, b :: rest =>
      if b.id = 0 then ad_call_reduce_selfs_from index (i + 1) rest
      else
        (i + 1, b.perm.map (fun k => index.getD k 0)) ::
          ad_call_reduce_selfs_from index (i + 1) rest

/-- The self-stack pushes performed by one run of `ad_call_reduce`'s bucket
loop (`for (size_t i = 0; i < n_inst; ++i)`). -/
def ad_call_reduce_selfs (index : List Nat) (buckets : List CallBucket) :
    List (Nat × List Nat) :=
  ad_call_reduce_selfs_from index 0 buckets

/-- C5 evaluation at the failing input: with call index `[0, 0, 3, 3]` and
buckets `[(id 0, perm [0, 1]), (id 3, perm [2, 3])]` (the null bucket is
skipped), the single processed bucket has callable id 3 and the gathered
per-lane instance-id variable is `[3, 3]`, yet the scalar self value pushed
is its array position plus one, i.e. 2 — not the bucket's id. -/
theorem ad_call_reduce_self_pushes_position_not_id :
    ad_call_reduce_selfs [0, 0, 3, 3] [⟨0, [0, 1]⟩, ⟨3, [2, 3]⟩] =
      [(2, [3, 3])] ∧ (2 : Nat) ≠ 3 := by
  decide

/-! ## The while-loop state traversal (src/python/while.cpp,
`LoopState::traverse`)

For a leaf state variable with an index (`s.index` branch of the private
`traverse`), the code compares the recorded entry size `s1 = entries[id].size`
with the current size `s2 = jit_var_size(i2)`:

    if (!first_time && s1 != s2 && s1 != 1 && s2 != 1)
        nb::raise("the body of this loop changed the size of loop state
                   variable ... from %zu to %zu. ...");

then checks the variable against the loop's wavefront size `loop_size`
(raising a different, incompatible-size error), and finally records
`s1 = s2`.  The embedding reproduces this leaf check verbatim. -/

/-- The two errors the leaf size check can raise: the size-transition error
(`LoopSizeConflict`, "the body of this loop changed the size of loop state
variable ... from %zu to %zu") and the wavefront-consistency error ("The body
of this loop operates on arrays of size %zu. Loop state variable ... has an
incompatible size %zu."). -/
inductive LoopErr where
  | LoopSizeConflict
  | IncompatibleLoopSize
deriving Repr, DecidableEq

/-- Inputs of the leaf size check of `LoopState::traverse` for one leaf on
one traversal pass. -/
structure LeafCheckIn where
  /-- `first_time`: this is the first traversal pass (the entry was just
  created with size 0) -/
  first_time : Bool
  /-- `s1 = entries[id].size`: the recorded size -/
  s1 : Nat
  /-- `s2 = jit_var_size((uint32_t) i2)`: the leaf's current size -/
  s2 : Nat
  /-- `loop_size`: the size of the arrays the loop operates on -/
  loop_size : Nat
  /-- `i1 != i2`: the leaf's variable index changed since last pass -/
  idx_changed : Bool
  /-- `jit_var_is_dirty(i2)` -/
  dirty : Bool
deriving Repr, DecidableEq

/-- Shallow embedding of the `s.index` leaf branch of `LoopState::traverse`
(read traversal): both raises, the `loop_size` update, and the final
`i1 = i2; s1 = s2;` bookkeeping.  On success it returns the new
`(entries[id].size, loop_size)` pair. -/
def loop_leaf_size_check (i : LeafCheckIn) : Except LoopErr (Nat × Nat) :=
  if ¬ i.first_time ∧ i.s1 ≠ i.s2 ∧ i.s1 ≠ 1 ∧ i.s2 ≠ 1 then
    .error .LoopSizeConflict
  else if i.loop_size ≠ i.s2 ∧ i.idx_changed ∧ ¬ i.dirty then
    if i.loop_size ≠ 1 ∧ i.s2 ≠ 1 then .error .IncompatibleLoopSize
    else .ok (i.s2, max i.loop_size i.s2)
  else .ok (i.s2, i.loop_size)

/-- C6 counterexample: on a later pass (`first_time = false`) a leaf recorded
with size 5 that shrinks to size 1 — while the loop operates on arrays of
size 5, with a changed, non-dirty index — raises nothing: the check returns
successfully and records the new size 1, refuting the claim that a transition
from N to 1 raises `LoopSizeConflict`. -/
theorem loop_leaf_shrink_to_one_allowed :
    loop_leaf_size_check
        { first_time := false, s1 := 5, s2 := 1, loop_size := 5,
          idx_changed := true, dirty := false } = .ok (1, 5) ∧
      (5 : Nat) ≠ 1 := by
  decide

/-- C6 (amended): across successive traversal passes the recorded size of a
leaf may stay equal, grow from 1 to N, or shrink to 1; `LoopSizeConflict`
(the "changed the size of loop state variable" error) is raised exactly for
the remaining transitions, i.e. on a non-first pass between two distinct
sizes that are both greater than 1.  (The separate wavefront-consistency
check may still reject a leaf whose size disagrees with the loop size, but
that is a different error and does not depend on the recorded size.) -/
theorem loop_leaf_size_conflict_iff (i : LeafCheckIn) :
    loop_leaf_size_check i = .error .LoopSizeConflict ↔
      (i.first_time = false ∧ i.s1 ≠ i.s2 ∧ i.s1 ≠ 1 ∧ i.s2 ≠ 1) := by
  unfold loop_leaf_size_check
  repeat' split
  all_goals try simp_all
  all_goals tauto

/-! ## Variable-table model for the return-value checks
(extra/call.cpp, `ad_call_check_rv` and the degenerate path of `ad_call`)

An IR handle is a natural number indexing a table of variable records; index
0 is the "empty/uninitialized" sentinel and the table slot 0 is a dummy, so
that every allocated handle is nonzero.  `jit_var_literal(backend, type,
&zero, size)` appends a fresh zero-valued literal record and returns its
(fresh, nonzero) index. -/

/-- The per-variable data consumed by the embedded code: `jit_var_type`,
`jit_set_backend(...).backend`, `jit_var_size`, and whether the variable is a
zero-valued literal. -/
structure VarInfo where
  vtype : Nat
  vbackend : Nat
  vsize : Nat
  zeroLit : Bool
deriving Repr, DecidableEq

/-- The IR variable table. -/
structure JitState where
  vars : List VarInfo
deriving Repr, DecidableEq

/-- Record of handle `h` (out-of-range handles yield a dummy record). -/
def jit_var_info (st : JitState) (h : Nat) : VarInfo :=
  st.vars.getD h ⟨0, 0, 0, false⟩

/-- `jit_var_type(h)`. -/
def jit_var_vtype (st : JitState) (h : Nat) : Nat := (jit_var_info st h).vtype

/-- `jit_set_backend(h).backend`. -/
def jit_var_backend (st : JitState) (h : Nat) : Nat :=
  (jit_var_info st h).vbackend

/-- `jit_var_literal(backend, t, &zero, size)`: append a fresh zero literal,
return the new state and the fresh handle. -/
def jit_var_literal_zero (st : JitState) (backend t size : Nat) :
    JitState × Nat :=
  (⟨st.vars ++ [⟨t, backend, size, true⟩]⟩, st.vars.length)

/-- The degenerate path of `ad_call` (extra/call.cpp):
`for (uint64_t &i : rv) { uint64_t zero = 0; if (i) i =
jit_var_literal(backend, jit_var_type(i), &zero, size); }` — every non-zero
handle returned by `func` is replaced by a fresh zero literal of the same
type and of the unified `size`; a zero handle is left in place. -/
def ad_call_degenerate_rv (backend size : Nat) :
    JitState → List Nat → JitState × List Nat
  | st, [] => (st, [])
  | st, h :: rest =>
      if h = 0 then
        let q := ad_call_degenerate_rv backend size st rest
        (q.1, h :: q.2)
      else
        let p := jit_var_literal_zero st backend (jit_var_vtype st h) size
        let q := ad_call_degenerate_rv backend size p.1 rest
        (q.1, p.2 :: q.2)

/-- The degenerate-path loop only appends fresh records to the table. -/
theorem ad_call_degenerate_rv_extends (backend size : Nat) :
    ∀ (rv : List Nat) (st : JitState),
      ∃ t, (ad_call_degenerate_rv backend size st rv).1.vars =
        st.vars ++ t := by
  intro rv
  induction rv with
  | nil => exact fun st => ⟨[], by simp [ad_call_degenerate_rv]⟩
  | cons h rest ih =>
    intro st
    by_cases h0 : h = 0
    · rcases ih st with ⟨t, ht⟩
      exact ⟨t, by simp [ad_call_degenerate_rv, h0, ht]⟩
    · rcases ih ⟨st.vars ++ [⟨jit_var_vtype st h, backend, size, true⟩]⟩
        with ⟨t, ht⟩
      refine ⟨⟨jit_var_vtype st h, backend, size, true⟩ :: t, ?_⟩
      simp only [ad_call_degenerate_rv, h0, if_false, jit_var_literal_zero]
      simp only [jit_var_literal_zero] at ht
      rw [ht, List.append_assoc]
      rfl

/-- Records of pre-existing handles survive the degenerate-path loop. -/
theorem jit_var_info_degenerate_preserved (backend size : Nat)
    (rv : List Nat) (st : JitState) (k : Nat) (hk : k < st.vars.length) :
    jit_var_info (ad_call_degenerate_rv backend size st rv).1 k =
      jit_var_info st k := by
  rcases ad_call_degenerate_rv_extends backend size rv st with ⟨t, ht⟩
  unfold jit_var_info
  rw [ht, List.getD_append _ _ _ _ hk]

/-- Auxiliary induction for the degenerate-path guarantee, generalized over a
base table `st0` of which the working table `st` is an extension: every
handle of `rv` that is nonzero and valid in `st0` ends up replaced by a
fresh, nonzero handle whose record is a zero literal of the same type and of
the given `size`. -/
theorem ad_call_degenerate_rv_spec_aux (backend size : Nat) :
    ∀ (rv : List Nat) (st0 st : JitState) (t0 : List VarInfo),
      st.vars = st0.vars ++ t0 → 0 < st0.vars.length →
      (∀ h ∈ rv, h ≠ 0 ∧ h < st0.vars.length) →
      List.Forall₂ (fun h h2 => h2 ≠ 0 ∧
          jit_var_info (ad_call_degenerate_rv backend size st rv).1 h2 =
            ⟨jit_var_vtype st0 h, backend, size, true⟩)
        rv (ad_call_degenerate_rv backend size st rv).2 := by
  intro rv
  induction rv with
  | nil =>
    intro st0 st t0 hext h0 hmem
    simp [ad_call_degenerate_rv]
  | cons h rest ih =>
    intro st0 st t0 hext h0 hmem
    obtain ⟨hne, hlt⟩ := hmem h (List.mem_cons_self h rest)
    have hlt2 : h < st.vars.length := by
      rw [hext, List.length_append]; omega
    have hvt : jit_var_vtype st h = jit_var_vtype st0 h := by
      unfold jit_var_vtype jit_var_info
      rw [hext, List.getD_append _ _ _ _ hlt]
    simp only [ad_call_degenerate_rv, hne, if_false]
    refine List.Forall₂.cons ⟨?_, ?_⟩ ?_
    · -- the fresh handle `st.vars.length` is nonzero
      simp only [jit_var_literal_zero]
      have : 0 < st.vars.length := by
        rw [hext, List.length_append]; omega
      omega
    · -- its record is the zero literal of the original type and `size`
      have hfresh :
          (jit_var_literal_zero st backend (jit_var_vtype st h) size).2 <
            (jit_var_literal_zero st backend (jit_var_vtype st h) size).1.vars.length := by
        simp [jit_var_literal_zero]
      rw [jit_var_info_degenerate_preserved backend size rest _ _ hfresh]
      simp only [jit_var_literal_zero, jit_var_info]
      rw [List.getD_append_right _ _ _ _ (Nat.le_refl _)]
      simp [hvt]
    · -- tail: induction hypothesis at the extended table
      refine ih st0 _ (t0 ++ [⟨jit_var_vtype st h, backend, size, true⟩]) ?_ h0 ?_
      · simp only [jit_var_literal_zero]
        rw [hext, List.append_assoc]
      · exact fun x hx => hmem x (List.mem_cons_of_mem h hx)

/-- The errors raised by `ad_call_check_rv` (extra/call.cpp): unexpected
number of return values, empty/uninitialized return, inconsistent backend,
inconsistent type. -/
inductive CallErr where
  | ReturnArityMismatch
  | EmptyReturn
  | ReturnBackendMismatch
  | ReturnTypeMismatch
deriving Repr, DecidableEq

/-- The first-iteration branch of `ad_call_check_rv`: `rv.resize(rv2.size())`
followed by the loop that raises `EmptyReturn` on a zero handle and
otherwise sets `rv[i] = jit_var_literal(backend, jit_var_type(rv2[i]),
&zero, size)`. -/
def check_rv_alloc (backend size : Nat) :
    JitState → List Nat → Except CallErr (JitState × List Nat)
  | st, [] => .ok (st, [])
  | st, h :: rest =>
      if h = 0 then .error .EmptyReturn
      else
        let p := jit_var_literal_zero st backend (jit_var_vtype st h) size
        match check_rv_alloc backend size p.1 rest with
        | .ok q => .ok (q.1, p.2 :: q.2)
        | .error e => .error e

/-- The later-iteration branch of `ad_call_check_rv`: for each slot, raise
`EmptyReturn` on a zero handle, then compare the new value's backend against
the dispatcher's `backend` argument, then compare its type against the
type of the accumulated `rv[i]`.  (Invoked with lists of equal length.) -/
def check_rv_verify (st : JitState) (backend : Nat) :
    List Nat → List Nat → Except CallErr Unit
  | [], _ => .ok ()
  | _ :: _, [] => .ok ()
  | h1 :: r1, h2 :: r2 =>
      if h2 = 0 then .error .EmptyReturn
      else if jit_var_backend st h2 ≠ backend then .error .ReturnBackendMismatch
      else if jit_var_vtype st h1 ≠ jit_var_vtype st h2 then
        .error .ReturnTypeMismatch
      else check_rv_verify st backend r1 r2

/-- Shallow embedding of `static void ad_call_check_rv(backend, size,
callable_index, rv, rv2)` (extra/call.cpp): if the sizes disagree, raise
`ReturnArityMismatch` unless `rv` is still empty, in which case allocate the
zero-literal prototypes; otherwise run the per-slot sanity checks.  Returns
the updated table and accumulated `rv`. -/
def ad_call_check_rv (st : JitState) (backend size : Nat)
    (rv rv2 : List Nat) : Except CallErr (JitState × List Nat) :=
  if rv.length ≠ rv2.length then
    if rv ≠ [] then .error .ReturnArityMismatch
    else check_rv_alloc backend size st rv2
  else
    match check_rv_verify st backend rv rv2 with
    | .ok _ => .ok (st, rv)
    | .error e => .error e

/-- A strategy's sequence of `ad_call_check_rv` calls: one per invoked
callable, threading the accumulated `rv` (which starts empty) exactly as the
record and getter strategies do. -/
def ad_call_check_rv_run (backend size : Nat) :
    JitState → List Nat → List (List Nat) →
    Except CallErr (JitState × List Nat)
  | st, rv, [] => .ok (st, rv)
  | st, rv, rv2 :: rest =>
      match ad_call_check_rv st backend size rv rv2 with
      | .ok p => ad_call_check_rv_run backend size p.1 p.2 rest
      | .error e => .error e

/-- The allocation branch only produces fresh (hence nonzero) handles and
only grows the table. -/
theorem check_rv_alloc_nonzero (backend size : Nat) :
    ∀ (rv2 : List Nat) (st : JitState) (p : JitState × List Nat),
      0 < st.vars.length →
      check_rv_alloc backend size st rv2 = .ok p →
      (∀ h ∈ p.2, h ≠ 0) ∧ 0 < p.1.vars.length := by
  intro rv2
  induction rv2 with
  | nil =>
    intro st p h0 hok
    simp only [check_rv_alloc] at hok
    cases hok
    exact ⟨by simp, h0⟩
  | cons h rest ih =>
    intro st p h0 hok
    simp only [check_rv_alloc] at hok
    by_cases hz : h = 0
    · simp [hz] at hok
    · simp only [hz, if_false] at hok
      cases hrec : check_rv_alloc backend size
          (jit_var_literal_zero st backend (jit_var_vtype st h) size).1 rest with
      | error e => rw [hrec] at hok; cases hok
      | ok q =>
        rw [hrec] at hok
        cases hok
        have h0q : 0 < (jit_var_literal_zero st backend
            (jit_var_vtype st h) size).1.vars.length := by
          simp [jit_var_literal_zero]
        obtain ⟨hq, hlen⟩ := ih _ q h0q hrec
        refine ⟨?_, hlen⟩
        intro x hx
        rcases List.mem_cons.mp hx with hx | hx
        · subst hx
          simp only [jit_var_literal_zero]
          omega
        · exact hq x hx

/-- One `ad_call_check_rv` step preserves the invariant "all accumulated
handles are nonzero and the table is nonempty". -/
theorem ad_call_check_rv_nonzero (backend size : Nat) (st : JitState)
    (rv rv2 : List Nat) (p : JitState × List Nat)
    (h0 : 0 < st.vars.length) (hrv : ∀ h ∈ rv, h ≠ 0)
    (hok : ad_call_check_rv st backend size rv rv2 = .ok p) :
    (∀ h ∈ p.2, h ≠ 0) ∧ 0 < p.1.vars.length := by
  unfold ad_call_check_rv at hok
  by_cases hlen : rv.length ≠ rv2.length
  · rw [if_pos hlen] at hok
    by_cases hne : rv = []
    · rw [if_neg (by simp [hne])] at hok
      exact check_rv_alloc_nonzero backend size rv2 st p h0 hok
    · rw [if_pos hne] at hok
      cases hok
  · rw [if_neg hlen] at hok
    cases hv : check_rv_verify st backend rv rv2 with
    | error e => rw [hv] at hok; cases hok
    | ok u => rw [hv] at hok; cases hok; exact ⟨hrv, h0⟩

/-- Threading `ad_call_check_rv` over any sequence of per-callable return
vectors keeps every accumulated handle nonzero. -/
theorem ad_call_check_rv_run_nonzero (backend size : Nat) :
    ∀ (rvss : List (List Nat)) (st : JitState) (rv : List Nat)
      (p : JitState × List Nat),
      0 < st.vars.length → (∀ h ∈ rv, h ≠ 0) →
      ad_call_check_rv_run backend size st rv rvss = .ok p →
      ∀ h ∈ p.2, h ≠ 0 := by
  intro rvss
  induction rvss with
  | nil =>
    intro st rv p h0 hrv hok
    simp only [ad_call_check_rv_run] at hok
    cases hok
    exact hrv
  | cons rv2 rest ih =>
    intro st rv p h0 hrv hok
    simp only [ad_call_check_rv_run] at hok
    cases hstep : ad_call_check_rv st backend size rv rv2 with
    | error e => rw [hstep] at hok; cases hok
    | ok q =>
      rw [hstep] at hok
      obtain ⟨hq, hlen⟩ :=
        ad_call_check_rv_nonzero backend size st rv rv2 q h0 hrv hstep
      exact ih q.1 q.2 p hlen hq hok

/-- C2: after a successful (non-throwing) `ad_call`, every handle in `rv` is
nonzero.  Part one covers the degenerate path (`instance_index = 0`,
`size = 0`, all-false mask, or `callable_count = 0`): provided `func`
honoured the callable protocol and populated `rv` with nonzero (valid)
handles, every returned handle is replaced by a fresh nonzero zero-literal
of the same type and of the unified `size`.  Part two covers the strategy
paths: threading `ad_call_check_rv` over the per-callable return vectors —
which raises `EmptyReturn` on any zero handle — keeps every accumulated
handle of `rv` nonzero whenever it completes without raising. -/
theorem ad_call_rv_nonzero (backend size : Nat) (st : JitState)
    (h0 : 0 < st.vars.length) :
    (∀ rv : List Nat, (∀ h ∈ rv, h ≠ 0 ∧ h < st.vars.length) →
      List.Forall₂ (fun h h2 => h2 ≠ 0 ∧
          jit_var_info (ad_call_degenerate_rv backend size st rv).1 h2 =
            ⟨jit_var_vtype st h, backend, size, true⟩)
        rv (ad_call_degenerate_rv backend size st rv).2) ∧
    (∀ (rvss : List (List Nat)) (p : JitState × List Nat),
      ad_call_check_rv_run backend size st [] rvss = .ok p →
      ∀ h ∈ p.2, h ≠ 0) := by
  constructor
  · intro rv hmem
    exact ad_call_degenerate_rv_spec_aux backend size rv st st []
      (by simp) h0 hmem
  · intro rvss p hok
    exact ad_call_check_rv_run_nonzero backend size rvss st [] p h0
      (by simp) hok

/-- A two-entry variable table: the dummy slot 0 and one handle of type 5,
backend 0, size 1. -/
def jitStateTwo : JitState := ⟨[⟨0, 0, 0, false⟩, ⟨5, 0, 1, false⟩]⟩

/-- C2 witness: both parts evaluated concretely.  The degenerate path
replaces the single returned handle 1 by the fresh zero-literal handle 2 of
type 5 and size 4; the check-run over one callable returning handle 1
succeeds with a nonzero accumulated handle. -/
theorem ad_call_rv_nonzero_witness :
    List.Forall₂ (fun h h2 => h2 ≠ 0 ∧
        jit_var_info (ad_call_degenerate_rv 0 4 jitStateTwo [1]).1 h2 =
          ⟨jit_var_vtype jitStateTwo h, 0, 4, true⟩)
      [1] (ad_call_degenerate_rv 0 4 jitStateTwo [1]).2 ∧
    (∀ (p : JitState × List Nat),
      ad_call_check_rv_run 0 4 jitStateTwo [] [[1]] = .ok p →
      ∀ h ∈ p.2, h ≠ 0) :=
  ⟨(ad_call_rv_nonzero 0 4 jitStateTwo (by decide)).1 [1] (by decide),
   fun p hok => (ad_call_rv_nonzero 0 4 jitStateTwo (by decide)).2 [[1]] p hok⟩

/-- A variable table with handles of mixed backends: handle 1 lives on
backend 1, handle 2 on backend 0. -/
def jitStateMixed : JitState :=
  ⟨[⟨0, 0, 0, false⟩, ⟨0, 1, 1, false⟩, ⟨0, 0, 1, false⟩]⟩

/-- C3 counterexample: with dispatcher backend 0, the first callable returns
handle 1 (backend 1) and the second returns handle 2 (backend 0).  The
second callable's backend disagrees with the one the first callable fixed,
yet the check sequence succeeds — no `ReturnBackendMismatch` is raised —
because `ad_call_check_rv` never inspects the first callable's backend and
compares later callables against the dispatcher's `backend` argument
instead. -/
theorem check_rv_first_backend_unchecked :
    ad_call_check_rv_run 0 4 jitStateMixed [] [[1], [2]] =
      .ok (⟨[⟨0, 0, 0, false⟩, ⟨0, 1, 1, false⟩, ⟨0, 0, 1, false⟩,
             ⟨0, 0, 4, true⟩]⟩, [3]) ∧
    jit_var_backend jitStateMixed 1 = 1 ∧
    jit_var_backend jitStateMixed 2 = 0 ∧ (0 : Nat) ≠ 1 := by
  decide

/-- The allocation branch succeeds exactly when every returned handle is
nonzero (raising `EmptyReturn` otherwise). -/
theorem check_rv_alloc_ok_iff (backend size : Nat) :
    ∀ (rv2 : List Nat) (st : JitState),
      (∃ p, check_rv_alloc backend size st rv2 = .ok p) ↔
        ∀ h ∈ rv2, h ≠ 0 := by
  intro rv2
  induction rv2 with
  | nil =>
    intro st
    simp [check_rv_alloc]
  | cons h rest ih =>
    intro st
    constructor
    · rintro ⟨p, hok⟩
      simp only [check_rv_alloc] at hok
      by_cases hz : h = 0
      · rw [if_pos hz] at hok; cases hok
      · rw [if_neg hz] at hok
        intro x hx
        rcases List.mem_cons.mp hx with hx | hx
        · subst hx; exact hz
        · cases hrec : check_rv_alloc backend size
              (jit_var_literal_zero st backend (jit_var_vtype st h) size).1
              rest with
          | error e => rw [hrec] at hok; cases hok
          | ok q =>
            exact (ih _).mp ⟨q, hrec⟩ x hx
    · intro hall
      have hz : h ≠ 0 := hall h (List.mem_cons_self h rest)
      obtain ⟨q, hq⟩ := (ih
        (jit_var_literal_zero st backend (jit_var_vtype st h) size).1).mpr
        (fun x hx => hall x (List.mem_cons_of_mem h hx))
      refine ⟨(q.1, (jit_var_literal_zero st backend
        (jit_var_vtype st h) size).2 :: q.2), ?_⟩
      simp only [check_rv_alloc, if_neg hz, hq]

/-- The later-iteration checks succeed exactly when every slot carries a
nonzero handle on the dispatcher's backend whose type matches the
accumulated prototype. -/
theorem check_rv_verify_ok_iff (st : JitState) (backend : Nat) :
    ∀ (rv rv2 : List Nat), rv.length = rv2.length →
      (check_rv_verify st backend rv rv2 = .ok () ↔
        List.Forall₂ (fun h1 h2 => h2 ≠ 0 ∧
          jit_var_backend st h2 = backend ∧
          jit_var_vtype st h1 = jit_var_vtype st h2) rv rv2) := by
  intro rv
  induction rv with
  | nil =>
    intro rv2 hlen
    cases rv2 with
    | nil => simp [check_rv_verify]
    | cons h2 r2 => simp at hlen
  | cons h1 r1 ih =>
    intro rv2 hlen
    cases rv2 with
    | nil => simp at hlen
    | cons h2 r2 =>
      simp only [check_rv_verify]
      by_cases hz : h2 = 0
      · rw [if_pos hz]
        constructor
        · intro hcontra; cases hcontra
        · intro hf
          exact absurd hz (List.forall₂_cons.mp hf).1.1
      · rw [if_neg hz]
        by_cases hb : jit_var_backend st h2 ≠ backend
        · rw [if_pos hb]
          constructor
          · intro hcontra; cases hcontra
          · intro hf
            exact absurd (List.forall₂_cons.mp hf).1.2.1 hb
        · rw [if_neg hb]
          by_cases ht : jit_var_vtype st h1 ≠ jit_var_vtype st h2
          · rw [if_pos ht]
            constructor
            · intro hcontra; cases hcontra
            · intro hf
              exact absurd (List.forall₂_cons.mp hf).1.2.2 ht
          · rw [if_neg ht]
            rw [ih r2 (by simpa using hlen)]
            rw [List.forall₂_cons]
            simp only [not_not] at hb ht
            simp [hz, hb, ht]

/-- C3 (amended): in every strategy, the first callable that returns a
non-empty result fixes the number of return values and their element types,
and a zero handle always raises `EmptyReturn`; the backend, however, is
checked against the dispatcher's `backend` argument — the first callable's
own backend is never verified, and later callables raise
`ReturnBackendMismatch` exactly when they disagree with the dispatcher's
backend (not with the first callable's).  Concretely: (1) a subsequent
callable whose arity disagrees raises `ReturnArityMismatch`; (2) once `rv`
is non-empty, a check passes iff every slot is nonzero, on the dispatcher's
backend, and of the fixed type — with the corresponding error raised at the
first violating slot (3-5); and (6) the first non-empty callable is checked
only for zero handles. -/
theorem ad_call_check_rv_characterization :
    (∀ (st : JitState) (backend size : Nat) (rv rv2 : List Nat),
      rv ≠ [] → rv.length ≠ rv2.length →
      ad_call_check_rv st backend size rv rv2 =
        .error .ReturnArityMismatch) ∧
    (∀ (st : JitState) (backend size : Nat) (rv rv2 : List Nat),
      rv.length = rv2.length →
      ((∃ p, ad_call_check_rv st backend size rv rv2 = .ok p) ↔
        List.Forall₂ (fun h1 h2 => h2 ≠ 0 ∧
          jit_var_backend st h2 = backend ∧
          jit_var_vtype st h1 = jit_var_vtype st h2) rv rv2)) ∧
    (∀ (st : JitState) (backend size : Nat) (h1 h2 : Nat)
        (r1 r2 : List Nat), r1.length = r2.length →
      (h2 = 0 →
        ad_call_check_rv st backend size (h1 :: r1) (h2 :: r2) =
          .error .EmptyReturn) ∧
      (h2 ≠ 0 → jit_var_backend st h2 ≠ backend →
        ad_call_check_rv st backend size (h1 :: r1) (h2 :: r2) =
          .error .ReturnBackendMismatch) ∧
      (h2 ≠ 0 → jit_var_backend st h2 = backend →
        jit_var_vtype st h1 ≠ jit_var_vtype st h2 →
        ad_call_check_rv st backend size (h1 :: r1) (h2 :: r2) =
          .error .ReturnTypeMismatch)) ∧
    (∀ (st : JitState) (backend size : Nat) (rv2 : List Nat),
      (∃ p, ad_call_check_rv st backend size [] rv2 = .ok p) ↔
        ∀ h ∈ rv2, h ≠ 0) := by
  refine ⟨?_, ?_, ?_, ?_⟩
  · intro st backend size rv rv2 hne hlen
    unfold ad_call_check_rv
    rw [if_pos hlen, if_pos hne]
  · intro st backend size rv rv2 hlen
    unfold ad_call_check_rv
    rw [if_neg (by omega)]
    constructor
    · rintro ⟨p, hok⟩
      cases hv : check_rv_verify st backend rv rv2 with
      | error e => rw [hv] at hok; cases hok
      | ok u => exact (check_rv_verify_ok_iff st backend rv rv2 hlen).mp hv
    · intro hf
      rw [(check_rv_verify_ok_iff st backend rv rv2 hlen).mpr hf]
      exact ⟨(st, rv), rfl⟩
  · intro st backend size h1 h2 r1 r2 hlen
    refine ⟨?_, ?_, ?_⟩
    · intro hz
      unfold ad_call_check_rv
      rw [if_neg (by simp; omega)]
      simp only [check_rv_verify, if_pos hz]
    · intro hz hb
      unfold ad_call_check_rv
      rw [if_neg (by simp; omega)]
      simp only [check_rv_verify, if_neg hz, if_pos hb]
    · intro hz hb ht
      unfold ad_call_check_rv
      rw [if_neg (by simp; omega)]
      simp only [check_rv_verify, if_neg hz,
        if_neg (by simp [hb] : ¬ jit_var_backend st h2 ≠ backend),
        if_pos ht]
  · intro st backend size rv2
    cases rv2 with
    | nil =>
      constructor
      · intro _ x hx
        cases hx
      · intro _
        exact ⟨(st, []), by simp [ad_call_check_rv, check_rv_verify]⟩
    | cons h2 r2 =>
      unfold ad_call_check_rv
      rw [if_pos (by simp), if_neg (by simp)]
      exact check_rv_alloc_ok_iff backend size (h2 :: r2) st

/-- C3 witness: the amended statement evaluated concretely — an arity
mismatch from a subsequent callable, a backend mismatch against the
dispatcher backend, and a successful first-callable allocation. -/
theorem ad_call_check_rv_characterization_witness :
    ad_call_check_rv jitStateMixed 0 4 [3] [] =
      .error .ReturnArityMismatch ∧
    ad_call_check_rv jitStateMixed 0 4 [2] [1] =
      .error .ReturnBackendMismatch ∧
    (∃ p, ad_call_check_rv jitStateMixed 0 4 [] [2] = .ok p) :=
  ⟨ad_call_check_rv_characterization.1 jitStateMixed 0 4 [3] []
      (by decide) (by decide),
   (ad_call_check_rv_characterization.2.2.1 jitStateMixed 0 4 2 1
      [] [] rfl).2.1 (by decide) (by decide),
   (ad_call_check_rv_characterization.2.2.2 jitStateMixed 0 4 [2]).mpr
      (by decide)⟩
